import Mathlib

/-!
Verification development for the Spotify→YouTube track-matching core
(`src/lib/youtube.ts`).  The matching/scoring engine is embedded shallowly:

* JS strings are Lean `String`s; every string operation the source uses
  (`toLowerCase`, `includes`, `split`, `trim`, the three regex replaces of
  `normalizeTitleForMatching`, `Number` on colon-split timestamp parts) is
  implemented structurally over `List Char` so that it is executable and
  kernel-reducible.  `Number` on a timestamp part is modelled as: empty part ↦ 0,
  all-digit part ↦ its value, anything else ↦ NaN (`none`) — exactly the cases a
  colon-delimited duration can produce.  Case-folding is ASCII (`Char.toLower`),
  matching the source's use on ASCII keyword/channel data.
* JS numbers that carry scores are embedded as `ℚ` (the score arithmetic of the
  source — `ratio/100*40`, `+25/+15/+10/+5/+2.5`, `Math.min · 100` — is exact in
  binary floating point for integer fuzz ratios, so `ℚ` is faithful).
* The external search collaborator `yts` is a parameter
  `search : String → Option (List Video)`; `none` models a thrown/failed call,
  `some vs` a successful call returning `vs` (`result.videos || []`).
* The fuzzball library is a parameter `Fuzz` bundling its two ratio functions.
* `Array.prototype.sort(compareCandidates)` (stable in V8) is modelled by a
  stable insertion sort with the same comparator; any two stable sorts by the
  same consistent comparator produce the same list.
* `async`/`Promise.all`/`p-limit` orchestration: `Promise.all` resolves
  positionally, so `searchTracks` is the positional `List.map` of the per-track
  pipeline; the `p-limit` concurrency ceiling is runtime scheduling and has no
  observable effect on the returned value.
-/

namespace YT

/-- Confidence labels, `'HIGH' | 'MEDIUM' | 'LOW'` (youtube.ts:11). -/
inductive Confidence where
  | HIGH
  | MEDIUM
  | LOW
deriving DecidableEq

/-- Reason codes (youtube.ts:12). -/
inductive Reason where
  | matched
  | no_results
  | low_confidence
  | negative_keyword
  | no_match
  | search_error
deriving DecidableEq

/-- `TrackInput` (youtube.ts:15-19); the optional `duration_ms` is an `Option Nat`
(the spec types it `optional<uint32>`). -/
structure TrackInput where
  name : String
  artists : String
  duration_ms : Option Nat
deriving DecidableEq

/-- One `yts.VideoSearchResult` as the source consumes it: `title`, `url`,
`author.name`, `timestamp`, `views`. -/
structure Video where
  title : String
  url : String
  authorName : String
  timestamp : String
  views : Nat
deriving DecidableEq

/-- `YouTubeResult` (youtube.ts:6-13). -/
structure YouTubeResult where
  youtubeUrl : Option String
  title : Option String
  channel : Option String
  duration : Option String
  confidence : Option Confidence
  reason : Reason
deriving DecidableEq

/-- `SearchResult` (youtube.ts:21-28). -/
structure SearchResult where
  track : TrackInput
  youtubeUrl : Option String
  title : Option String
  channel : Option String
  confidence : Option Confidence
  reason : Reason
deriving DecidableEq

/-- The fuzzball collaborator (external library): its two ratio functions,
each returning an integer ratio. -/
structure Fuzz where
  tokenSetRatio : String → String → Nat
  partialRatio : String → String → Nat

/-- `ScoredCandidate` (youtube.ts:30-36). -/
structure ScoredCandidate where
  video : Video
  score : ℚ
  hasDurationMatch : Bool
  isOfficial : Bool
  fuzzyScore : Nat
deriving DecidableEq

/-- `NEGATIVE_KEYWORDS` (youtube.ts:39-52). -/
def NEGATIVE_KEYWORDS : List String :=
  ["karaoke", "cover", "instrumental", "remix", "tutorial", "reaction",
   "live", "acoustic version", "piano version", "slowed", "reverb", "8d audio"]

/-- `POSITIVE_KEYWORDS` (youtube.ts:54). -/
def POSITIVE_KEYWORDS : List String := ["official", "audio", "music video", "vevo"]

/-- `OFFICIAL_PATTERNS` (youtube.ts:56). -/
def OFFICIAL_PATTERNS : List String := ["vevo", " - topic", "official"]

/-- `MIN_MATCH_THRESHOLD` (youtube.ts:58). -/
def MIN_MATCH_THRESHOLD : ℚ := 40

/-- ASCII lower-casing of a string, modelling `String.prototype.toLowerCase`
on the ASCII data the source compares. -/
def lowerS (s : String) : String := String.mk (s.data.map Char.toLower)

/-- Does `l` start with `pat`? (exact characters). -/
def startsWithChars : List Char → List Char → Bool
  | _, [] => true
  | [], _ :: _ => false
  | c :: cs, p :: ps => (c = p) && startsWithChars cs ps

/-- Substring occurrence test over characters, modelling
`String.prototype.includes`. -/
def hasSub : List Char → List Char → Bool
  | [], pat => pat.isEmpty
  | c :: cs, pat => startsWithChars (c :: cs) pat || hasSub cs pat

/-- `s.includes(pat)`. -/
def strIncludes (s pat : String) : Bool := hasSub s.data pat.data

/-- Split a character list at a separator character, modelling
`String.prototype.split` with a one-character separator ("".split gives [""]). -/
def splitChar (sep : Char) : List Char → List (List Char)
  | [] => [[]]
  | c :: cs =>
    let acc := splitChar sep cs
    if c = sep then [] :: acc
    else
      match acc with
      | [] => [[c]]
      | a :: as => (c :: a) :: as

/-- JS `Number(part)` on one colon-split timestamp part: an empty part is 0,
an all-digit part is its value, anything else is NaN (`none`). -/
def jsNumPart (l : List Char) : Option Nat :=
  if l.isEmpty then some 0
  else if l.all Char.isDigit then
    some (l.foldl (fun acc c => acc * 10 + (c.toNat - 48)) 0)
  else none

/-- Does `l` start with `pat`, ASCII case-insensitively? (models a
case-insensitive regex literal). -/
def startsWithCI : List Char → List Char → Bool
  | _, [] => true
  | [], _ :: _ => false
  | c :: cs, p :: ps => (c.toLower = p.toLower) && startsWithCI cs ps

/-- Scan for the first `)` not preceded by a newline; on success return the
characters after it.  This is the lazy `.*?\)` part of the regexes in
`normalizeTitleForMatching` (`.` does not match a newline). -/
def consumeToParen : List Char → Option (List Char)
  | [] => none
  | c :: cs =>
    if c = (')') then some cs
    else if c = ('\n') then none
    else consumeToParen cs

/-- Scanner for the global case-insensitive removal of
`pat ++ lazy-anything ++ ")"` spans, modelling `.replace(/PAT.*?\)/gi, '')`
where `PAT` is the literal `p0 :: prest` (e.g. `"(feat."`, which contains no
`)` itself).  In skipping mode (`true`) characters are dropped up to and
including the span-closing `)`; in scanning mode (`false`) a span starts
wherever the pattern matches and a `)` is reachable with no newline before it
(the lazy `.*?\)` cannot cross a newline); where no `)` is reachable the regex
does not match at that start position and scanning resumes one character on. -/
def rpsAux (p0 : Char) (prest : List Char) : Bool → List Char → List Char
  | _, [] => []
  | true, c :: cs =>
    if c = (')') then rpsAux p0 prest false cs else rpsAux p0 prest true cs
  | false, c :: cs =>
    if startsWithCI (c :: cs) (p0 :: prest) &&
        (consumeToParen (cs.drop prest.length)).isSome then
      rpsAux p0 prest true cs
    else c :: rpsAux p0 prest false cs

/-- Global removal of `(p0 :: prest) ++ lazy-anything ++ ")"` spans (see
`rpsAux`). -/
def removeParenSpans (p0 : Char) (prest : List Char) (l : List Char) : List Char :=
  rpsAux p0 prest false l

/-- Removal of a trailing case-insensitive `feat.` annotation, modelling
`.replace(/feat\..*$/gi, '')`: cut at the first `feat.` that is followed by no
newline (without `/m`, `$` only matches at the very end and `.` cannot cross a
newline, so a later newline blocks the match). -/
def removeTrailingFeat : List Char → List Char
  | [] => []
  | c :: cs =>
    if startsWithCI (c :: cs) (("feat.").data) && !(cs.drop 4).contains ('\n') then []
    else c :: removeTrailingFeat cs

/-- Whitespace trim at both ends, modelling `String.prototype.trim`. -/
def trimChars (l : List Char) : List Char :=
  ((l.dropWhile Char.isWhitespace).reverse.dropWhile Char.isWhitespace).reverse

/-- `normalizeTitleForMatching` (youtube.ts:63-69): strip `(feat. ...)`,
`(ft. ...)` and a trailing `feat. ...`, then trim. -/
def normalizeTitleForMatching (title : String) : String :=
  String.mk (trimChars (removeTrailingFeat
    (removeParenSpans ('(') (("ft.").data)
      (removeParenSpans ('(') (("feat.").data) title.data))))

/-- `parseDuration` (youtube.ts:74-80): split on `:`, `Number` each part, 0 on
any NaN part or empty input, else `reduce((acc, val) => acc * 60 + val, 0)`. -/
def parseDuration (timestamp : String) : Nat :=
  if timestamp.data.isEmpty then 0
  else
    let parts := (splitChar (':') timestamp.data).map jsNumPart
    if parts.any Option.isNone then 0
    else (parts.map (fun p => p.getD 0)).foldl (fun acc v => acc * 60 + v) 0

/-- `isDurationMatch` (youtube.ts:84-96); `Math.round(ms/1000)` on a
non-negative integer is `(ms + 500) / 1000` in integer division. -/
def isDurationMatch (spotifyMs : Nat) (ytTimestamp : String) (tolerance : Nat) : Bool :=
  let spotifySeconds := (spotifyMs + 500) / 1000
  let ytSeconds := parseDuration ytTimestamp
  if ytSeconds = 0 then false
  else decide (((spotifySeconds : Int) - (ytSeconds : Int)).natAbs ≤ tolerance)

/-- `shouldFilterByDuration` (youtube.ts:102-114). -/
def shouldFilterByDuration (spotifyMs : Nat) (ytTimestamp : String) : Bool :=
  let spotifySeconds := (spotifyMs + 500) / 1000
  let ytSeconds := parseDuration ytTimestamp
  if ytSeconds = 0 then true
  else if (ytSeconds : Int) > (spotifySeconds : Int) + 30 then true
  else if (ytSeconds : Int) < (spotifySeconds : Int) - 10 then true
  else false

/-- `hasNegativeKeyword` (youtube.ts:119-122). -/
def hasNegativeKeyword (title : String) : Bool :=
  NEGATIVE_KEYWORDS.any (fun kw => strIncludes (lowerS title) kw)

/-- `isOfficialChannel` (youtube.ts:127-137). -/
def isOfficialChannel (F : Fuzz) (channel : String) (artist : String) : Bool :=
  let channelLower := lowerS channel
  if OFFICIAL_PATTERNS.any (fun p => strIncludes channelLower p) then true
  else decide (F.tokenSetRatio artist channel > 85)

/-- `track.artists.split(',')[0].trim()` (youtube.ts:148). -/
def primaryArtist (track : TrackInput) : String :=
  String.mk (trimChars (((splitChar (',') track.artists.data).headD []).map id))

/-- `scoreVideo` (youtube.ts:143-208): sum the six weighted signals in source
order and cap at 100.  JS truthiness: `track.duration_ms` is truthy iff present
and non-zero, `video.timestamp` iff non-empty. -/
def scoreVideo (F : Fuzz) (video : Video) (track : TrackInput) : ScoredCandidate :=
  let artist := primaryArtist track
  let normalizedSpotify := normalizeTitleForMatching (track.name ++ " " ++ artist)
  let normalizedYT := normalizeTitleForMatching video.title
  let fuzzyRatio := F.tokenSetRatio normalizedSpotify normalizedYT
  let fuzzyPoints : ℚ := ((fuzzyRatio : ℚ) / 100) * 40
  let score1 : ℚ := fuzzyPoints
  let hasDur : Bool :=
    (track.duration_ms.getD 0 != 0) && !video.timestamp.data.isEmpty &&
      isDurationMatch (track.duration_ms.getD 0) video.timestamp 5
  let score2 : ℚ := score1 + (if hasDur then 25 else 0)
  let titleArtistSimilarity := F.partialRatio (lowerS artist) (lowerS video.title)
  let channelArtistSimilarity := F.partialRatio (lowerS artist) (lowerS video.authorName)
  let score3 : ℚ :=
    score2 + (if titleArtistSimilarity > 80 ∨ channelArtistSimilarity > 80 then 15 else 0)
  let isOff : Bool := isOfficialChannel F video.authorName artist
  let score4 : ℚ := score3 + (if isOff then 10 else 0)
  let titleLower := lowerS video.title
  let hasPositiveKeyword : Bool := POSITIVE_KEYWORDS.any (fun kw => strIncludes titleLower kw)
  let score5 : ℚ := score4 + (if hasPositiveKeyword then 5 else 0)
  let viewPoints : ℚ :=
    if video.views > 10000000 then 5 else if video.views > 1000000 then 5 / 2 else 0
  let score6 : ℚ := score5 + viewPoints
  { video := video
    score := min score6 100
    hasDurationMatch := hasDur
    isOfficial := isOff
    fuzzyScore := fuzzyRatio }

/-- A JS boolean viewed as the number `b ? 1 : 0` (youtube.ts:218-224). -/
def boolVal (b : Bool) : ℚ := if b then 1 else 0

/-- `compareCandidates` (youtube.ts:214-232): negative means `a` sorts first. -/
def compareCandidates (a b : ScoredCandidate) : ℚ :=
  if a.score ≠ b.score then b.score - a.score
  else if boolVal a.hasDurationMatch ≠ boolVal b.hasDurationMatch then
    boolVal b.hasDurationMatch - boolVal a.hasDurationMatch
  else if boolVal a.isOfficial ≠ boolVal b.isOfficial then
    boolVal b.isOfficial - boolVal a.isOfficial
  else if a.fuzzyScore ≠ b.fuzzyScore then (b.fuzzyScore : ℚ) - (a.fuzzyScore : ℚ)
  else (b.video.views : ℚ) - (a.video.views : ℚ)

/-- Stable insertion of `x` after every element strictly before it under the
comparator. -/
def insertCand (x : ScoredCandidate) : List ScoredCandidate → List ScoredCandidate
  | [] => [x]
  | y :: ys => if compareCandidates y x < 0 then y :: insertCand x ys else x :: y :: ys

/-- `candidates.sort(compareCandidates)` (youtube.ts:292): a stable sort by the
comparator.  V8's `Array.prototype.sort` is stable, and all stable sorts by the
same consistent comparator agree, so insertion sort is a faithful model. -/
def sortCandidates : List ScoredCandidate → List ScoredCandidate
  | [] => []
  | x :: xs => insertCand x (sortCandidates xs)

/-- `getConfidence` (youtube.ts:237-241). -/
def getConfidence (score : ℚ) : Confidence :=
  if score ≥ 70 then Confidence.HIGH
  else if score ≥ 50 then Confidence.MEDIUM
  else Confidence.LOW

/-- The query list of `searchSingleTrack` (youtube.ts:248-252). -/
def trackQueries (track : TrackInput) : List String :=
  [track.name ++ " " ++ track.artists ++ " official audio",
   track.name ++ " " ++ track.artists ++ " official",
   track.name ++ " " ++ track.artists]

/-- The filter-and-score loop over the top 10 raw results (youtube.ts:262-277):
drop negative-keyword titles; when `track.duration_ms` and `video.timestamp`
are truthy, drop duration-implausible candidates; score the rest. -/
def filterCandidates (F : Fuzz) (track : TrackInput) (videos : List Video) :
    List ScoredCandidate :=
  (videos.take 10).filterMap (fun video =>
    if hasNegativeKeyword video.title then none
    else if (track.duration_ms.getD 0 != 0) && !video.timestamp.data.isEmpty &&
        shouldFilterByDuration (track.duration_ms.getD 0) video.timestamp then none
    else some (scoreVideo F video track))

/-- `candidates.sort(compareCandidates); const best = candidates[0]`
(youtube.ts:292-294), undefined (`none`) when every candidate was filtered. -/
def winner (F : Fuzz) (track : TrackInput) (videos : List Video) :
    Option ScoredCandidate :=
  match filterCandidates F track videos with
  | [] => none
  | c :: cs => some ((sortCandidates (c :: cs)).headD c)

/-- A null-URL outcome record (youtube.ts:281-288, 298-305, 325-332). -/
def noUrlResult (reason : Reason) : YouTubeResult :=
  { youtubeUrl := none, title := none, channel := none, duration := none,
    confidence := none, reason := reason }

/-- The above-threshold outcome record (youtube.ts:308-317). -/
def matchedResult (best : ScoredCandidate) : YouTubeResult :=
  { youtubeUrl := some best.video.url
    title := some best.video.title
    channel := some best.video.authorName
    duration := some best.video.timestamp
    confidence := some (getConfidence best.score)
    reason := if getConfidence best.score = Confidence.LOW then Reason.low_confidence
              else Reason.matched }

/-- The `for (const query of queries)` loop of `searchSingleTrack`
(youtube.ts:254-332).  A thrown search (`none`) or an empty result list falls
through to the next query; a non-empty list is filtered, and an empty surviving
set short-circuits with `negative_keyword`; otherwise the sorted best is
thresholded and classified.  Exhaustion yields `no_results`. -/
def runQueries (F : Fuzz) (search : String → Option (List Video))
    (track : TrackInput) : List String → YouTubeResult
  | [] => noUrlResult Reason.no_results
  | q :: rest =>
    match search q with
    | none => runQueries F search track rest
    | some videos =>
      if videos.isEmpty then runQueries F search track rest
      else
        match winner F track videos with
        | none => noUrlResult Reason.negative_keyword
        | some best =>
          if best.score < MIN_MATCH_THRESHOLD then noUrlResult Reason.no_match
          else matchedResult best

/-- `searchSingleTrack` (youtube.ts:247-333). -/
def searchSingleTrack (F : Fuzz) (search : String → Option (List Video))
    (track : TrackInput) : YouTubeResult :=
  runQueries F search track (trackQueries track)

/-- The per-track mapper inside `searchTracks` (youtube.ts:343-366).  Its
`try`/`catch` wraps only `searchSingleTrack`, which is total here, so the
`search_error` fallback is not a branch of the model (claim C9 proves the
corresponding unreachability at the interface). -/
def trackResult (F : Fuzz) (search : String → Option (List Video))
    (track : TrackInput) : SearchResult :=
  let result := searchSingleTrack F search track
  { track := track, youtubeUrl := result.youtubeUrl, title := result.title,
    channel := result.channel, confidence := result.confidence, reason := result.reason }

/-- `searchTracks` (youtube.ts:340-370): `Promise.all` over the per-track
pipelines resolves positionally, i.e. a `List.map` in input order; the
`pLimit(2)` ceiling only schedules execution and does not affect the value. -/
def searchTracks (F : Fuzz) (search : String → Option (List Video))
    (tracks : List TrackInput) : List SearchResult :=
  tracks.map (trackResult F search)

/-- Modelled from the claim text of C6 (spec §4.3) verbatim, for refinement
comparison with `scoreVideo`: here the duration bonus requires only that
`durationMs` is present (the claim's "known"), the candidate duration parses
(non-zero per C4's reading of "0:00" as unparseable), and the durations differ
by at most 5 seconds. -/
def specScoreStated (F : Fuzz) (video : Video) (track : TrackInput) : ℚ :=
  let artist := primaryArtist track
  let ratio := F.tokenSetRatio
    (normalizeTitleForMatching (track.name ++ " " ++ artist))
    (normalizeTitleForMatching video.title)
  let durBonus : ℚ :=
    if track.duration_ms.isSome ∧ parseDuration video.timestamp ≠ 0 ∧
        ((((track.duration_ms.getD 0 + 500) / 1000 : Nat) : Int) -
          (parseDuration video.timestamp : Int)).natAbs ≤ 5 then 25 else 0
  let artistBonus : ℚ :=
    if F.partialRatio (lowerS artist) (lowerS video.title) > 80 ∨
        F.partialRatio (lowerS artist) (lowerS video.authorName) > 80 then 15 else 0
  let officialBonus : ℚ :=
    if strIncludes (lowerS video.authorName) ("vevo") ∨
        strIncludes (lowerS video.authorName) (" - topic") ∨
        strIncludes (lowerS video.authorName) ("official") ∨
        F.tokenSetRatio artist video.authorName > 85 then 10 else 0
  let positiveBonus : ℚ :=
    if strIncludes (lowerS video.title) ("official") ∨
        strIncludes (lowerS video.title) ("audio") ∨
        strIncludes (lowerS video.title) ("music video") ∨
        strIncludes (lowerS video.title) ("vevo") then 5 else 0
  let viewBonus : ℚ :=
    if video.views > 10000000 then 5 else if video.views > 1000000 then 5 / 2 else 0
  min 100 (((ratio : ℚ) / 100) * 40 + durBonus + artistBonus + officialBonus +
    positiveBonus + viewBonus)

/-- Modelled from the claim text of C6 as amended: identical to
`specScoreStated` except that the duration bonus additionally requires the
known `durationMs` to be non-zero (JS truthiness of `track.duration_ms`). -/
def specScoreAmended (F : Fuzz) (video : Video) (track : TrackInput) : ℚ :=
  let artist := primaryArtist track
  let ratio := F.tokenSetRatio
    (normalizeTitleForMatching (track.name ++ " " ++ artist))
    (normalizeTitleForMatching video.title)
  let durBonus : ℚ :=
    if track.duration_ms.getD 0 ≠ 0 ∧ parseDuration video.timestamp ≠ 0 ∧
        ((((track.duration_ms.getD 0 + 500) / 1000 : Nat) : Int) -
          (parseDuration video.timestamp : Int)).natAbs ≤ 5 then 25 else 0
  let artistBonus : ℚ :=
    if F.partialRatio (lowerS artist) (lowerS video.title) > 80 ∨
        F.partialRatio (lowerS artist) (lowerS video.authorName) > 80 then 15 else 0
  let officialBonus : ℚ :=
    if strIncludes (lowerS video.authorName) ("vevo") ∨
        strIncludes (lowerS video.authorName) (" - topic") ∨
        strIncludes (lowerS video.authorName) ("official") ∨
        F.tokenSetRatio artist video.authorName > 85 then 10 else 0
  let positiveBonus : ℚ :=
    if strIncludes (lowerS video.title) ("official") ∨
        strIncludes (lowerS video.title) ("audio") ∨
        strIncludes (lowerS video.title) ("music video") ∨
        strIncludes (lowerS video.title) ("vevo") then 5 else 0
  let viewBonus : ℚ :=
    if video.views > 10000000 then 5 else if video.views > 1000000 then 5 / 2 else 0
  min 100 (((ratio : ℚ) / 100) * 40 + durBonus + artistBonus + officialBonus +
    positiveBonus + viewBonus)

/-- A fuzzball collaborator returning constant ratios, for concrete
instantiations of the oracle-parameterized theorems. -/
def constFuzz (t p : Nat) : Fuzz :=
  { tokenSetRatio := fun _ _ => t, partialRatio := fun _ _ => p }

/-- Concrete track for witnesses: no duration. -/
def wTrack : TrackInput := { name := "t", artists := "a", duration_ms := none }

/-- Concrete candidate video for witnesses: clean title, empty timestamp. -/
def wVideo : Video :=
  { title := "t", url := "u", authorName := "c", timestamp := "", views := 0 }

/-- Concrete search oracle answering only the first query of `wTrack`. -/
def wOracle : String → Option (List Video) :=
  fun q => if q = ("t a official audio") then some [wVideo] else none

/-- A search oracle that throws on every call. -/
def searchNone : String → Option (List Video) := fun _ => none

/-- Concrete candidate whose title carries the negative keyword `karaoke`. -/
def negVideo : Video :=
  { title := "t karaoke", url := "u2", authorName := "c", timestamp := "", views := 0 }

/-- A search oracle returning only `negVideo`, for the all-filtered case. -/
def negOracle : String → Option (List Video) := fun _ => some [negVideo]

/-- Concrete track with a known 200000 ms duration. -/
def cTrack : TrackInput := { name := "t", artists := "a", duration_ms := some 200000 }

/-- Concrete candidate with the malformed/unavailable duration string `0:00`. -/
def cVideo : Video :=
  { title := "t", url := "u", authorName := "c", timestamp := "0:00", views := 0 }

/-- Concrete track with `duration_ms` present but zero (JS-falsy). -/
def zTrack : TrackInput := { name := "t", artists := "a", duration_ms := some 0 }

/-- Concrete candidate whose duration parses to 3 seconds. -/
def zVideo : Video :=
  { title := "t", url := "u", authorName := "c", timestamp := "0:03", views := 0 }

/-- Concrete scored candidate: official channel, for the tie-break witness. -/
def candA : ScoredCandidate :=
  { video := wVideo, score := 50, hasDurationMatch := false, isOfficial := true,
    fuzzyScore := 80 }

/-- Concrete scored candidate: same score as `candA`, not official. -/
def candB : ScoredCandidate :=
  { video := negVideo, score := 50, hasDurationMatch := false, isOfficial := false,
    fuzzyScore := 90 }

/-- Every outcome of the query loop is one of the four return shapes of
`searchSingleTrack` (youtube.ts:280-332). -/
theorem runQueries_shape (F : Fuzz) (search : String → Option (List Video))
    (track : TrackInput) (qs : List String) :
    runQueries F search track qs = noUrlResult Reason.no_results ∨
    runQueries F search track qs = noUrlResult Reason.negative_keyword ∨
    runQueries F search track qs = noUrlResult Reason.no_match ∨
    ∃ best : ScoredCandidate, MIN_MATCH_THRESHOLD ≤ best.score ∧
      runQueries F search track qs = matchedResult best := by
  induction qs with
  | nil => left; rfl
  | cons q rest ih =>
    cases hq : search q with
    | none => simpa [runQueries, hq] using ih
    | some videos =>
      by_cases hv : videos.isEmpty
      · simpa [runQueries, hq, hv] using ih
      · cases hw : winner F track videos with
        | none =>
          right; left
          simp [runQueries, hq, hv, hw]
        | some best =>
          by_cases hb : best.score < MIN_MATCH_THRESHOLD
          · right; right; left
            simp [runQueries, hq, hv, hw, hb]
          · right; right; right
            exact ⟨best, le_of_not_lt hb, by simp [runQueries, hq, hv, hw, hb]⟩

/-- C1: for every ordered batch, `searchTracks` returns exactly as many
outcomes as there are input tracks, and the i-th outcome embeds the i-th input
track, for every fuzz collaborator and every search-oracle behaviour
(including per-track failures); `Promise.all` positional semantics. -/
theorem C1_batch_length_and_order (F : Fuzz) (search : String → Option (List Video))
    (tracks : List TrackInput) :
    (searchTracks F search tracks).length = tracks.length ∧
    (searchTracks F search tracks).map SearchResult.track = tracks := by
  constructor
  · simp [searchTracks]
  · induction tracks with
    | nil => rfl
    | cons t ts ih => simpa [searchTracks, trackResult] using ih

/-- C2: for every outcome of the per-track pipeline and of the batch
orchestrator, `confidence` is non-null iff `youtubeUrl` is non-null,
`reason = matched` iff confidence is HIGH or MEDIUM, and
`reason = low_confidence` iff confidence is LOW, in which case the outcome
still carries a URL. -/
theorem C2_confidence_url_coupling (F : Fuzz) (search : String → Option (List Video)) :
    (∀ track : TrackInput,
      ((searchSingleTrack F search track).confidence ≠ none ↔
        (searchSingleTrack F search track).youtubeUrl ≠ none) ∧
      ((searchSingleTrack F search track).reason = Reason.matched ↔
        ((searchSingleTrack F search track).confidence = some Confidence.HIGH ∨
         (searchSingleTrack F search track).confidence = some Confidence.MEDIUM)) ∧
      ((searchSingleTrack F search track).reason = Reason.low_confidence ↔
        (searchSingleTrack F search track).confidence = some Confidence.LOW) ∧
      ((searchSingleTrack F search track).reason = Reason.low_confidence →
        (searchSingleTrack F search track).youtubeUrl ≠ none)) ∧
    (∀ (tracks : List TrackInput) (r : SearchResult), r ∈ searchTracks F search tracks →
      ((r.confidence ≠ none ↔ r.youtubeUrl ≠ none) ∧
       (r.reason = Reason.matched ↔
         (r.confidence = some Confidence.HIGH ∨ r.confidence = some Confidence.MEDIUM)) ∧
       (r.reason = Reason.low_confidence ↔ r.confidence = some Confidence.LOW) ∧
       (r.reason = Reason.low_confidence → r.youtubeUrl ≠ none))) := by
  have key : ∀ track : TrackInput,
      ((searchSingleTrack F search track).confidence ≠ none ↔
        (searchSingleTrack F search track).youtubeUrl ≠ none) ∧
      ((searchSingleTrack F search track).reason = Reason.matched ↔
        ((searchSingleTrack F search track).confidence = some Confidence.HIGH ∨
         (searchSingleTrack F search track).confidence = some Confidence.MEDIUM)) ∧
      ((searchSingleTrack F search track).reason = Reason.low_confidence ↔
        (searchSingleTrack F search track).confidence = some Confidence.LOW) ∧
      ((searchSingleTrack F search track).reason = Reason.low_confidence →
        (searchSingleTrack F search track).youtubeUrl ≠ none) := by
    intro track
    rcases runQueries_shape F search track (trackQueries track) with h | h | h | ⟨best, _, h⟩ <;>
      rw [searchSingleTrack, h]
    · simp [noUrlResult]
    · simp [noUrlResult]
    · simp [noUrlResult]
    · cases hgc : getConfidence best.score <;>
        simp [matchedResult, hgc]
  refine ⟨key, ?_⟩
  intro tracks r hr
  rcases List.mem_map.mp hr with ⟨t, _, rfl⟩
  simpa [trackResult] using key t

/-- C2 witness: the invariant instantiated at a concrete batch outcome. -/
theorem C2_witness :
    ((trackResult (constFuzz 100 100) wOracle wTrack).confidence ≠ none ↔
      (trackResult (constFuzz 100 100) wOracle wTrack).youtubeUrl ≠ none) ∧
    ((trackResult (constFuzz 100 100) wOracle wTrack).reason = Reason.matched ↔
      ((trackResult (constFuzz 100 100) wOracle wTrack).confidence = some Confidence.HIGH ∨
       (trackResult (constFuzz 100 100) wOracle wTrack).confidence = some Confidence.MEDIUM)) ∧
    ((trackResult (constFuzz 100 100) wOracle wTrack).reason = Reason.low_confidence ↔
      (trackResult (constFuzz 100 100) wOracle wTrack).confidence = some Confidence.LOW) ∧
    ((trackResult (constFuzz 100 100) wOracle wTrack).reason = Reason.low_confidence →
      (trackResult (constFuzz 100 100) wOracle wTrack).youtubeUrl ≠ none) :=
  (C2_confidence_url_coupling (constFuzz 100 100) wOracle).2 [wTrack]
    (trackResult (constFuzz 100 100) wOracle wTrack) (List.Mem.head _)

/-- C9: for every batch and every search-oracle behaviour — including an
oracle that throws on every call — no outcome of `searchSingleTrack` or
`searchTracks` carries `reason = search_error`: the per-query errors are all
absorbed inside the query loop, so the orchestrator's per-track fallback is
unreachable at the public interface. -/
theorem C9_search_error_unreachable (F : Fuzz) (search : String → Option (List Video)) :
    (∀ track : TrackInput, (searchSingleTrack F search track).reason ≠ Reason.search_error) ∧
    (∀ (tracks : List TrackInput) (r : SearchResult), r ∈ searchTracks F search tracks →
      r.reason ≠ Reason.search_error) := by
  have key : ∀ track : TrackInput,
      (searchSingleTrack F search track).reason ≠ Reason.search_error := by
    intro track
    rcases runQueries_shape F search track (trackQueries track) with h | h | h | ⟨best, _, h⟩ <;>
      rw [searchSingleTrack, h]
    · simp [noUrlResult]
    · simp [noUrlResult]
    · simp [noUrlResult]
    · by_cases hgc : getConfidence best.score = Confidence.LOW <;>
        simp [matchedResult, hgc]
  refine ⟨key, ?_⟩
  intro tracks r hr
  rcases List.mem_map.mp hr with ⟨t, _, rfl⟩
  simpa [trackResult] using key t

/-- C9 witness: a batch whose search throws on every call still yields an
outcome, and its reason is not `search_error`. -/
theorem C9_witness :
    (trackResult (constFuzz 0 0) searchNone wTrack).reason ≠ Reason.search_error :=
  (C9_search_error_unreachable (constFuzz 0 0) searchNone).2 [wTrack]
    (trackResult (constFuzz 0 0) searchNone wTrack) (List.Mem.head _)

/-- C8: the pipeline tries exactly the three query strings in order, stops at
the first query whose raw result list is non-empty (the outcome no longer
depends on the remaining queries), skips a throwing query (`none`) exactly
like an empty one, and resolves exhaustion to a null `no_results` outcome. -/
theorem C8_query_strategy (F : Fuzz) (search : String → Option (List Video))
    (track : TrackInput) :
    trackQueries track =
      [track.name ++ " " ++ track.artists ++ " official audio",
       track.name ++ " " ++ track.artists ++ " official",
       track.name ++ " " ++ track.artists] ∧
    (∀ (q : String) (rest : List String), search q = none →
      runQueries F search track (q :: rest) = runQueries F search track rest) ∧
    (∀ (q : String) (rest : List String), search q = some [] →
      runQueries F search track (q :: rest) = runQueries F search track rest) ∧
    (∀ (q : String) (rest : List String) (videos : List Video),
      search q = some videos → videos ≠ [] →
      runQueries F search track (q :: rest) = runQueries F search track [q]) ∧
    runQueries F search track [] = noUrlResult Reason.no_results ∧
    ((∀ q ∈ trackQueries track, search q = none ∨ search q = some []) →
      searchSingleTrack F search track = noUrlResult Reason.no_results) := by
  refine ⟨rfl, ?_, ?_, ?_, rfl, ?_⟩
  · intro q rest hq
    simp [runQueries, hq]
  · intro q rest hq
    simp [runQueries, hq]
  · intro q rest videos hq hne
    have hv : videos.isEmpty = false := by
      cases videos with
      | nil => exact absurd rfl hne
      | cons v vs => rfl
    simp [runQueries, hq, hv]
  · intro hall
    have step : ∀ q rest, search q = none ∨ search q = some [] →
        runQueries F search track (q :: rest) = runQueries F search track rest := by
      intro q rest hq
      rcases hq with hq | hq <;> simp [runQueries, hq]
    rw [searchSingleTrack, trackQueries]
    rw [step _ _ (hall _ (by simp [trackQueries]))]
    rw [step _ _ (hall _ (by simp [trackQueries]))]
    rw [step _ _ (hall _ (by simp [trackQueries]))]
    rfl

/-- C8 witness: with a search oracle that throws on each call, every query is
skipped, and the track resolves to the null `no_results` outcome. -/
theorem C8_witness :
    searchSingleTrack (constFuzz 0 0) searchNone wTrack = noUrlResult Reason.no_results :=
  (C8_query_strategy (constFuzz 0 0) searchNone wTrack).2.2.2.2.2
    (fun _ _ => Or.inl rfl)

/-- C5: when a (reached) query returns a non-empty raw list and the filter
removes every considered candidate, the loop short-circuits with a null
`negative_keyword` outcome, whatever queries remain; in particular this is
forced whenever every raw candidate's title contains a denylisted keyword, so
such a track is never conflated with `no_results`. -/
theorem C5_negative_keyword_short_circuit (F : Fuzz)
    (search : String → Option (List Video)) (track : TrackInput)
    (q : String) (rest : List String) (videos : List Video)
    (hq : search q = some videos) (hne : videos ≠ []) :
    (filterCandidates F track videos = [] →
      runQueries F search track (q :: rest) = noUrlResult Reason.negative_keyword) ∧
    ((∀ v ∈ videos, hasNegativeKeyword v.title = true) →
      runQueries F search track (q :: rest) = noUrlResult Reason.negative_keyword) := by
  have hv : videos.isEmpty = false := by
    cases videos with
    | nil => exact absurd rfl hne
    | cons v vs => rfl
  have main : filterCandidates F track videos = [] →
      runQueries F search track (q :: rest) = noUrlResult Reason.negative_keyword := by
    intro hfc
    have hw : winner F track videos = none := by
      rw [winner, hfc]
    simp [runQueries, hq, hv, hw]
  refine ⟨main, ?_⟩
  intro hneg
  refine main ?_
  rw [filterCandidates, List.filterMap_eq_nil_iff]
  intro v hv10
  have hvmem : v ∈ videos := List.take_subset 10 videos hv10
  simp [hneg v hvmem]

/-- C5 witness: a non-empty result list whose single candidate carries the
keyword `karaoke` yields `negative_keyword`, not `no_results`, even with
further queries pending. -/
theorem C5_witness :
    runQueries (constFuzz 0 0) negOracle wTrack ("q1" :: ["q2"]) =
      noUrlResult Reason.negative_keyword :=
  (C5_negative_keyword_short_circuit (constFuzz 0 0) negOracle wTrack "q1" ["q2"]
    [negVideo] rfl (by decide)).2 (by decide)

/-- C3: when the first tried query returns a non-empty raw list and the filter
leaves survivors, the winning candidate's score `s` classifies the outcome
deterministically: `s < 40` yields a null `no_match` outcome; `40 ≤ s < 50`
yields the winner's URL with LOW/`low_confidence`; `50 ≤ s < 70` MEDIUM/
`matched`; `70 ≤ s` HIGH/`matched` — mutually exclusive, jointly exhaustive
bands. -/
theorem C3_confidence_bands (F : Fuzz) (search : String → Option (List Video))
    (track : TrackInput) (videos : List Video) (best : ScoredCandidate)
    (h1 : search (track.name ++ " " ++ track.artists ++ " official audio") = some videos)
    (h2 : videos ≠ [])
    (h3 : winner F track videos = some best) :
    (best.score < 40 → searchSingleTrack F search track =
      { youtubeUrl := none, title := none, channel := none, duration := none,
        confidence := none, reason := Reason.no_match }) ∧
    (40 ≤ best.score → best.score < 50 → searchSingleTrack F search track =
      { youtubeUrl := some best.video.url, title := some best.video.title,
        channel := some best.video.authorName, duration := some best.video.timestamp,
        confidence := some Confidence.LOW, reason := Reason.low_confidence }) ∧
    (50 ≤ best.score → best.score < 70 → searchSingleTrack F search track =
      { youtubeUrl := some best.video.url, title := some best.video.title,
        channel := some best.video.authorName, duration := some best.video.timestamp,
        confidence := some Confidence.MEDIUM, reason := Reason.matched }) ∧
    (70 ≤ best.score → searchSingleTrack F search track =
      { youtubeUrl := some best.video.url, title := some best.video.title,
        channel := some best.video.authorName, duration := some best.video.timestamp,
        confidence := some Confidence.HIGH, reason := Reason.matched }) := by
  have hv : videos.isEmpty = false := by
    cases videos with
    | nil => exact absurd rfl h2
    | cons v vs => rfl
  have hrun : searchSingleTrack F search track =
      (if best.score < MIN_MATCH_THRESHOLD then noUrlResult Reason.no_match
       else matchedResult best) := by
    rw [searchSingleTrack, trackQueries]
    simp [runQueries, h1, hv, h3]
  refine ⟨?_, ?_, ?_, ?_⟩
  · intro hb
    rw [hrun, if_pos (show best.score < MIN_MATCH_THRESHOLD from hb)]
    rfl
  · intro h40 h50
    rw [hrun, if_neg (not_lt.mpr (show MIN_MATCH_THRESHOLD ≤ best.score from h40))]
    have hc : getConfidence best.score = Confidence.LOW := by
      have n70 : ¬ best.score ≥ 70 := not_le.mpr (lt_trans h50 (by norm_num))
      have n50 : ¬ best.score ≥ 50 := not_le.mpr h50
      simp [getConfidence, n70, n50]
    simp [matchedResult, hc]
  · intro h50 h70
    rw [hrun, if_neg (not_lt.mpr (show MIN_MATCH_THRESHOLD ≤ best.score from
      le_trans (by norm_num [MIN_MATCH_THRESHOLD]) h50))]
    have hc : getConfidence best.score = Confidence.MEDIUM := by
      have n70 : ¬ best.score ≥ 70 := not_le.mpr h70
      simp [getConfidence, n70, h50]
    simp [matchedResult, hc]
  · intro h70
    rw [hrun, if_neg (not_lt.mpr (show MIN_MATCH_THRESHOLD ≤ best.score from
      le_trans (by norm_num [MIN_MATCH_THRESHOLD]) h70))]
    have hc : getConfidence best.score = Confidence.HIGH := by
      simp [getConfidence, h70]
    simp [matchedResult, hc]

/-- C3 witness: a concrete surviving winner scoring 65 lands in the MEDIUM
band and produces a `matched` outcome carrying its URL. -/
theorem C3_witness :
    50 ≤ (scoreVideo (constFuzz 100 100) wVideo wTrack).score ∧
    (scoreVideo (constFuzz 100 100) wVideo wTrack).score < 70 ∧
    searchSingleTrack (constFuzz 100 100) wOracle wTrack =
      { youtubeUrl := some "u", title := some "t", channel := some "c",
        duration := some "", confidence := some Confidence.MEDIUM,
        reason := Reason.matched } := by
  have hs : (scoreVideo (constFuzz 100 100) wVideo wTrack).score = 65 := by
    norm_num [scoreVideo, isOfficialChannel, primaryArtist, lowerS, strIncludes, hasSub,
      startsWithChars, splitChar, trimChars, constFuzz, POSITIVE_KEYWORDS,
      OFFICIAL_PATTERNS, isDurationMatch, parseDuration, wVideo, wTrack, min_def]
  refine ⟨by rw [hs]; norm_num, by rw [hs]; norm_num, ?_⟩
  exact (C3_confidence_bands (constFuzz 100 100) wOracle wTrack [wVideo]
    (scoreVideo (constFuzz 100 100) wVideo wTrack)
    (by decide) (by decide) rfl).2.2.1 (by rw [hs]; norm_num) (by rw [hs]; norm_num)

/-- C4 (amended): for a track with a truthy known duration and a candidate
whose duration string parses to 0 (non-numeric, empty, or the "0:00" form),
the scorer never awards the 25-point duration bonus and the score equals the
score with duration unknown (remaining signals only); an EMPTY duration string
escapes the filter's duration rule entirely (the candidate survives unless a
negative keyword drops it), but a NON-EMPTY unparseable duration string causes
`shouldFilterByDuration` to report "malformed" and the filter drops the
candidate — contrary to the claim as stated. -/
theorem C4_unparseable_duration_amended (F : Fuzz) (track : TrackInput) (video : Video)
    (hknown : track.duration_ms.getD 0 ≠ 0)
    (hparse : parseDuration video.timestamp = 0) :
    (scoreVideo F video track).hasDurationMatch = false ∧
    (scoreVideo F video track).score =
      (scoreVideo F video { track with duration_ms := none }).score ∧
    (video.timestamp = "" → hasNegativeKeyword video.title = false →
      filterCandidates F track [video] = [scoreVideo F video track]) ∧
    (video.timestamp ≠ "" →
      shouldFilterByDuration (track.duration_ms.getD 0) video.timestamp = true ∧
      filterCandidates F track [video] = []) := by
  have hdm : isDurationMatch (track.duration_ms.getD 0) video.timestamp 5 = false := by
    simp [isDurationMatch, hparse]
  have hfilter : shouldFilterByDuration (track.duration_ms.getD 0) video.timestamp = true := by
    simp [shouldFilterByDuration, hparse]
  refine ⟨?_, ?_, ?_, ?_⟩
  · simp [scoreVideo, hdm]
  · simp [scoreVideo, hdm, primaryArtist]
  · intro hts hneg
    have hdata : video.timestamp.data = [] := by rw [hts]
    simp [filterCandidates, hneg, hdata]
  · intro hts
    refine ⟨hfilter, ?_⟩
    have hdata : ¬ video.timestamp.data = [] := by
      intro h
      exact hts (String.ext (by rw [h]))
    by_cases hneg : hasNegativeKeyword video.title
    · simp [filterCandidates, hneg]
    · simp [filterCandidates, hneg, hdata, hknown, hfilter]

/-- C4 counterexample: track duration 200000 ms known, candidate duration
string `0:00` (no negative keyword in its title): the claim as stated says the
filter must not drop the candidate on duration grounds, but the duration rule
reports it filtered and the candidate list comes back empty. -/
theorem C4_counterexample :
    hasNegativeKeyword cVideo.title = false ∧
    shouldFilterByDuration 200000 ("0:00") = true ∧
    filterCandidates (constFuzz 0 0) cTrack [cVideo] = [] := by
  exact ⟨by decide, by decide, by decide⟩

/-- C4 witness: the amended theorem instantiated at the `0:00` candidate. -/
theorem C4_witness :
    (scoreVideo (constFuzz 0 0) cVideo cTrack).hasDurationMatch = false ∧
    shouldFilterByDuration (cTrack.duration_ms.getD 0) cVideo.timestamp = true ∧
    filterCandidates (constFuzz 0 0) cTrack [cVideo] = [] := by
  have h := C4_unparseable_duration_amended (constFuzz 0 0) cTrack cVideo
    (by decide) (by decide)
  exact ⟨h.1, (h.2.2.2 (by decide)).1, (h.2.2.2 (by decide)).2⟩

/-- The scorer's duration-bonus guard (JS truthiness and `isDurationMatch`)
phrased as a proposition: known non-zero track duration, candidate duration
parsing to a non-zero value, and at most 5 seconds apart. -/
theorem durCond_iff (track : TrackInput) (video : Video) :
    ((track.duration_ms.getD 0 != 0) && !video.timestamp.data.isEmpty &&
      isDurationMatch (track.duration_ms.getD 0) video.timestamp 5) = true ↔
    (track.duration_ms.getD 0 ≠ 0 ∧ parseDuration video.timestamp ≠ 0 ∧
      ((((track.duration_ms.getD 0 + 500) / 1000 : Nat) : Int) -
        (parseDuration video.timestamp : Int)).natAbs ≤ 5) := by
  by_cases hp : parseDuration video.timestamp = 0
  · have hdm : isDurationMatch (track.duration_ms.getD 0) video.timestamp 5 = false := by
      simp [isDurationMatch, hp]
    simp [hdm, hp]
  · have hne : video.timestamp.data.isEmpty = false := by
      cases he : video.timestamp.data.isEmpty with
      | false => rfl
      | true => exact absurd (by simp [parseDuration, he]) hp
    simp [isDurationMatch, hp, hne, Bool.and_eq_true, bne_iff_ne, decide_eq_true_eq]

/-- The official-channel test phrased as a proposition: one of the three
whitelist substrings in the lower-cased channel, or artist/channel token-set
ratio above 85. -/
theorem isOfficial_iff (F : Fuzz) (channel artist : String) :
    isOfficialChannel F channel artist = true ↔
    (strIncludes (lowerS channel) ("vevo") = true ∨
     strIncludes (lowerS channel) (" - topic") = true ∨
     strIncludes (lowerS channel) ("official") = true ∨
     F.tokenSetRatio artist channel > 85) := by
  cases hany : (OFFICIAL_PATTERNS.any fun p => strIncludes (lowerS channel) p) with
  | true =>
    have hd := hany
    simp [OFFICIAL_PATTERNS] at hd
    simp [isOfficialChannel, hany]
    tauto
  | false =>
    have hd := hany
    simp [OFFICIAL_PATTERNS] at hd
    simp [isOfficialChannel, hany, decide_eq_true_eq, hd.1, hd.2.1, hd.2.2]

/-- The positive-keyword test phrased as a proposition. -/
theorem positive_any_iff (t : String) :
    (POSITIVE_KEYWORDS.any fun kw => strIncludes t kw) = true ↔
    (strIncludes t ("official") = true ∨ strIncludes t ("audio") = true ∨
     strIncludes t ("music video") = true ∨ strIncludes t ("vevo") = true) := by
  simp [POSITIVE_KEYWORDS]

/-- C6 (amended): the scorer's output equals the claimed closed-form capped
sum — title-similarity ratio scaled to 40, 25-point duration bonus (requiring
`durationMs` present AND non-zero, i.e. JS truthiness, which the original
claim missed), 15-point artist verification, 10-point official-channel bonus,
5-point positive-keyword bonus, and the 5 / 2.5 / 0 view bonus. -/
theorem C6_score_formula_amended (F : Fuzz) (video : Video) (track : TrackInput) :
    (scoreVideo F video track).score = specScoreAmended F video track := by
  simp only [scoreVideo, specScoreAmended]
  rw [min_comm]
  congr 1
  rw [if_congr (durCond_iff track video) rfl rfl,
      if_congr (isOfficial_iff F video.authorName (primaryArtist track)) rfl rfl,
      if_congr (positive_any_iff (lowerS video.title)) rfl rfl]

/-- C6 counterexample: with `duration_ms = 0` present ("known") and a
candidate duration of `0:03`, the claim's formula awards the 25-point duration
bonus but the code's JS-truthiness guard does not: the stated formula yields
25 while the code scores 0. -/
theorem C6_counterexample :
    specScoreStated (constFuzz 0 0) zVideo zTrack = 25 ∧
    (scoreVideo (constFuzz 0 0) zVideo zTrack).score = 0 ∧
    specScoreStated (constFuzz 0 0) zVideo zTrack ≠
      (scoreVideo (constFuzz 0 0) zVideo zTrack).score := by
  have hpd : parseDuration ("0:03") = 3 := by decide
  have h1 : specScoreStated (constFuzz 0 0) zVideo zTrack = 25 := by
    norm_num [specScoreStated, constFuzz, primaryArtist, lowerS, strIncludes, hasSub,
      startsWithChars, splitChar, trimChars, hpd, zVideo, zTrack, min_def]
  have h2 : (scoreVideo (constFuzz 0 0) zVideo zTrack).score = 0 := by
    norm_num [scoreVideo, constFuzz, primaryArtist, lowerS, strIncludes, hasSub,
      startsWithChars, splitChar, trimChars, isDurationMatch, isOfficialChannel,
      POSITIVE_KEYWORDS, OFFICIAL_PATTERNS, hpd, zVideo, zTrack, min_def]
  exact ⟨h1, h2, by rw [h1, h2]; norm_num⟩

/-- `boolVal` is injective: JS `(b ? 1 : 0)` comparisons mirror the booleans. -/
theorem boolVal_eq_iff {x y : Bool} : boolVal x = boolVal y ↔ x = y := by
  cases x <;> cases y <;> simp [boolVal]

/-- A `boolVal` difference is negative exactly on a true-beats-false pair. -/
theorem boolVal_sub_neg {x y : Bool} : boolVal y - boolVal x < 0 ↔ (y = false ∧ x = true) := by
  cases x <;> cases y <;> norm_num [boolVal]

/-- `boolVal` comparison mirrors true-beats-false. -/
theorem boolVal_lt_iff {x y : Bool} : boolVal y < boolVal x ↔ (y = false ∧ x = true) := by
  cases x <;> cases y <;> norm_num [boolVal]

/-- The comparator is negative (`a` sorts first) exactly by the lexicographic
priority: score, then duration match, then official channel, then fuzzy score,
then view count. -/
theorem compare_lt_iff (a b : ScoredCandidate) :
    compareCandidates a b < 0 ↔
      (b.score < a.score ∨
       (a.score = b.score ∧ b.hasDurationMatch = false ∧ a.hasDurationMatch = true) ∨
       (a.score = b.score ∧ a.hasDurationMatch = b.hasDurationMatch ∧
         b.isOfficial = false ∧ a.isOfficial = true) ∨
       (a.score = b.score ∧ a.hasDurationMatch = b.hasDurationMatch ∧
         a.isOfficial = b.isOfficial ∧ b.fuzzyScore < a.fuzzyScore) ∨
       (a.score = b.score ∧ a.hasDurationMatch = b.hasDurationMatch ∧
         a.isOfficial = b.isOfficial ∧ a.fuzzyScore = b.fuzzyScore ∧
         b.video.views < a.video.views)) := by
  rw [compareCandidates]
  by_cases h1 : a.score = b.score
  · rw [if_neg (not_not_intro h1)]
    by_cases h2 : a.hasDurationMatch = b.hasDurationMatch
    · rw [if_neg (not_not_intro (congrArg boolVal h2))]
      by_cases h3 : a.isOfficial = b.isOfficial
      · rw [if_neg (not_not_intro (congrArg boolVal h3))]
        by_cases h4 : a.fuzzyScore = b.fuzzyScore
        · rw [if_neg (not_not_intro h4)]
          simp [h1, h2, h3, h4, sub_neg, Nat.cast_lt]
        · rw [if_pos h4]
          simp [h1, h2, h3, h4, sub_neg, Nat.cast_lt]
      · rw [if_pos (fun h => h3 (boolVal_eq_iff.mp h))]
        simp [h1, h2, h3, sub_neg, boolVal_lt_iff]
    · rw [if_pos (fun h => h2 (boolVal_eq_iff.mp h))]
      simp [h1, h2, sub_neg, boolVal_lt_iff]
  · rw [if_pos h1]
    simp [h1, sub_neg]

/-- The comparator is zero exactly when all five keys agree. -/
theorem compare_eq_iff (a b : ScoredCandidate) :
    compareCandidates a b = 0 ↔
      (a.score = b.score ∧ a.hasDurationMatch = b.hasDurationMatch ∧
       a.isOfficial = b.isOfficial ∧ a.fuzzyScore = b.fuzzyScore ∧
       b.video.views = a.video.views) := by
  rw [compareCandidates]
  by_cases h1 : a.score = b.score
  · rw [if_neg (not_not_intro h1)]
    by_cases h2 : a.hasDurationMatch = b.hasDurationMatch
    · rw [if_neg (not_not_intro (congrArg boolVal h2))]
      by_cases h3 : a.isOfficial = b.isOfficial
      · rw [if_neg (not_not_intro (congrArg boolVal h3))]
        by_cases h4 : a.fuzzyScore = b.fuzzyScore
        · rw [if_neg (not_not_intro h4)]
          simp [h1, h2, h3, h4, sub_eq_zero, Nat.cast_inj]
        · rw [if_pos h4]
          have h4s : ¬ b.fuzzyScore = a.fuzzyScore := fun h => h4 h.symm
          simp [h1, h2, h3, h4, h4s, sub_eq_zero, Nat.cast_inj]
      · rw [if_pos (fun h => h3 (boolVal_eq_iff.mp h))]
        have : ¬ boolVal b.isOfficial = boolVal a.isOfficial :=
          fun h => h3 (boolVal_eq_iff.mp h.symm)
        simp [h1, h2, h3, sub_eq_zero, this]
    · rw [if_pos (fun h => h2 (boolVal_eq_iff.mp h))]
      have : ¬ boolVal b.hasDurationMatch = boolVal a.hasDurationMatch :=
        fun h => h2 (boolVal_eq_iff.mp h.symm)
      simp [h1, h2, sub_eq_zero, this]
  · rw [if_pos h1]
    have : ¬ b.score = a.score := fun h => h1 h.symm
    simp [h1, sub_eq_zero, this]

/-- Swapping the comparator's arguments negates it (antisymmetry of the total
preorder). -/
theorem compare_antisymm (a b : ScoredCandidate) :
    compareCandidates b a = - compareCandidates a b := by
  rw [compareCandidates, compareCandidates]
  by_cases h1 : a.score = b.score
  · rw [if_neg (not_not_intro h1), if_neg (not_not_intro h1.symm)]
    by_cases h2 : a.hasDurationMatch = b.hasDurationMatch
    · rw [if_neg (not_not_intro (congrArg boolVal h2)),
        if_neg (not_not_intro (congrArg boolVal h2.symm))]
      by_cases h3 : a.isOfficial = b.isOfficial
      · rw [if_neg (not_not_intro (congrArg boolVal h3)),
          if_neg (not_not_intro (congrArg boolVal h3.symm))]
        by_cases h4 : a.fuzzyScore = b.fuzzyScore
        · rw [if_neg (not_not_intro h4), if_neg (not_not_intro h4.symm)]
          ring
        · rw [if_pos h4, if_pos (fun h => h4 h.symm)]
          ring
      · rw [if_pos (fun h => h3 (boolVal_eq_iff.mp h)),
          if_pos (fun h => h3 (boolVal_eq_iff.mp h.symm))]
        ring
    · rw [if_pos (fun h => h2 (boolVal_eq_iff.mp h)),
        if_pos (fun h => h2 (boolVal_eq_iff.mp h.symm))]
      ring
  · rw [if_pos h1, if_pos (fun h => h1 h.symm)]
    ring

/-- C7: the winner-selection comparator is the claimed five-level lexicographic
total (pre)order — negative exactly when the first differing criterion favours
`a` (higher score, then duration-match, then official, then fuzzy ratio, then
views), zero exactly when all five keys agree, antisymmetric under swap; in
particular, equal score and equal duration-match with exactly one official
candidate always resolves in favour of the official one. -/
theorem C7_tiebreak_total_order (a b : ScoredCandidate) :
    (compareCandidates a b < 0 ↔
      (b.score < a.score ∨
       (a.score = b.score ∧ b.hasDurationMatch = false ∧ a.hasDurationMatch = true) ∨
       (a.score = b.score ∧ a.hasDurationMatch = b.hasDurationMatch ∧
         b.isOfficial = false ∧ a.isOfficial = true) ∨
       (a.score = b.score ∧ a.hasDurationMatch = b.hasDurationMatch ∧
         a.isOfficial = b.isOfficial ∧ b.fuzzyScore < a.fuzzyScore) ∨
       (a.score = b.score ∧ a.hasDurationMatch = b.hasDurationMatch ∧
         a.isOfficial = b.isOfficial ∧ a.fuzzyScore = b.fuzzyScore ∧
         b.video.views < a.video.views))) ∧
    (compareCandidates a b = 0 ↔
      (a.score = b.score ∧ a.hasDurationMatch = b.hasDurationMatch ∧
       a.isOfficial = b.isOfficial ∧ a.fuzzyScore = b.fuzzyScore ∧
       b.video.views = a.video.views)) ∧
    (compareCandidates b a = - compareCandidates a b) ∧
    (a.score = b.score → a.hasDurationMatch = b.hasDurationMatch →
      a.isOfficial = true → b.isOfficial = false → compareCandidates a b < 0) := by
  refine ⟨compare_lt_iff a b, compare_eq_iff a b, compare_antisymm a b, ?_⟩
  intro hs hd hao hbo
  exact (compare_lt_iff a b).mpr (Or.inr (Or.inr (Or.inl ⟨hs, hd, hbo, hao⟩)))

/-- C7 witness: two concrete candidates with identical score 50 and equal
duration-match where only the first is official — the comparator ranks the
official one first. -/
theorem C7_witness :
    candA.score = candB.score ∧ candA.hasDurationMatch = candB.hasDurationMatch ∧
    candA.isOfficial = true ∧ candB.isOfficial = false ∧
    compareCandidates candA candB < 0 :=
  ⟨rfl, rfl, rfl, rfl,
    (C7_tiebreak_total_order candA candB).2.2.2 rfl rfl rfl rfl⟩

end YT
